import Mathlib

/-!
Shallow embedding of the batch-executor core of
`core/lib/zksync_core/src/state_keeper/batch_executor/main_executor.rs`.

The virtual machine (`VmInstance` from `multivm`) is an external collaborator:
its transaction execution, bootloader execution, batch finalization and
storage/witness queries are opaque to this module.  We embed it as an abstract
state type `σ` together with a record of transition functions (`VmBehavior`),
while the snapshot stack — whose discipline the engine itself drives via
`make_snapshot` / `rollback_to_the_latest_snapshot` / `pop_snapshot_no_rollback`
— is embedded explicitly as a list of saved states (`VmState`).

Engine functions additionally return the list of VM operations they performed
(`VmEvent`), so that claims of the form "the VM execution is never invoked" or
"exactly one snapshot is created" are directly statable.  Panics
(`unreachable!`, `panic!`, `expect`) are embedded as `none`.
-/

namespace StateKeeper

/-- Halt reasons (`multivm::interface::Halt`).  The engine inspects only the
variants named here; `other` stands for all remaining variants of the Rust
enum, tagged so that distinct reasons stay distinct. -/
inductive Halt where
  | TooBigGasLimit
  | BootloaderOutOfGas
  | FailedToPublishCompressedBytecodes
  | other (tag : Nat)
deriving DecidableEq, Repr

/-- `multivm::interface::ExecutionResult`.  The payloads of `Success` and
`Revert` (VM output bytes / revert reason) are opaque here. -/
inductive ExecutionResult where
  | Success (output : Nat)
  | Revert (output : Nat)
  | Halt (reason : Halt)
deriving DecidableEq, Repr

/-- `ExecutionResult::is_failed`: reverts and halts are failures. -/
def ExecutionResult.is_failed : ExecutionResult → Bool
  | .Success _ => false
  | .Revert _ => true
  | .Halt _ => true

/-- `multivm::interface::VmExecutionResultAndLogs`; the logs, statistics and
refunds attached to the result are opaque. -/
structure VmExecutionResultAndLogs where
  result : ExecutionResult
  logs : Nat
  statistics : Nat
deriving DecidableEq, Repr

/-- `zksync_utils::bytecode::CompressedBytecodeInfo` (opaque payload). -/
structure CompressedBytecodeInfo where
  original : Nat
  compressed : Nat
deriving DecidableEq, Repr

/-- `zksync_types::vm_trace::Call` (opaque payload). -/
structure Call where
  data : Nat
deriving DecidableEq, Repr

/-- `zksync_types::Transaction`: only the declared gas limit is inspected by
the engine; `payload` is an opaque identity the VM behavior may depend on. -/
structure Transaction where
  gas_limit : Nat
  payload : Nat
deriving DecidableEq, Repr

/-- `multivm::interface::L2BlockEnv` (opaque to the engine; forwarded). -/
structure L2BlockEnv where
  number : Nat
  timestamp : Nat
deriving DecidableEq, Repr

/-- `multivm::interface::FinishedL1Batch`: the block-tip execution result plus
the remaining artifact fields, opaque here. -/
structure FinishedL1Batch where
  block_tip_execution_result : VmExecutionResultAndLogs
  rest : Nat
deriving DecidableEq, Repr

/-- The witness state captured from the storage view
(`storage_view.witness_block_state()`), opaque. -/
structure WitnessBlockState where
  data : Nat
deriving DecidableEq, Repr

/-- `state_keeper::types::ExecutionMetricsForCriteria::new` is defined outside
this module; we record its inputs verbatim, which is faithful for every claim
(the engine only constructs and forwards these metrics). -/
structure ExecutionMetricsForCriteria where
  source_tx : Option Transaction
  from_result : VmExecutionResultAndLogs
deriving DecidableEq, Repr

def ExecutionMetricsForCriteria.new (tx : Option Transaction)
    (r : VmExecutionResultAndLogs) : ExecutionMetricsForCriteria :=
  ⟨tx, r⟩

/-- Output of one `vm.inspect_transaction_with_bytecode_compression` call:
`publish` is `true` for `Ok(())` (bytecode compression publication succeeded)
and `false` for `Err(..)`; `trace` is what an attached `CallTracer` collects
(taken by the engine only when tracing is enabled); `state` is the mutated
abstract VM-plus-storage state. -/
structure InspectOutput (σ : Type) where
  publish : Bool
  result : VmExecutionResultAndLogs
  trace : List Call
  state : σ
deriving DecidableEq, Repr

/-- Modelled from the spec: the opaque Execution Capability (spec section 6) —
the execution-side operations of the `VmInstance`, external to this core.  Attaching
a `CallTracer` is observationally transparent (it only records), so the same
transition function is used whether or not tracing is enabled. -/
structure VmBehavior (σ : Type) where
  /-- `vm.inspect_transaction_with_bytecode_compression(tracer, tx, with_compression)`. -/
  inspectTransactionWithBytecodeCompression : σ → Transaction → Bool → InspectOutput σ
  /-- `vm.get_last_tx_compressed_bytecodes()`. -/
  getLastTxCompressedBytecodes : σ → List CompressedBytecodeInfo
  /-- `vm.execute(VmExecutionMode::Bootloader)`: the block-tip finalization routine. -/
  executeBootloader : σ → VmExecutionResultAndLogs × σ
  /-- `vm.finish_batch()`. -/
  finishBatchVm : σ → FinishedL1Batch × σ
  /-- `vm.gas_remaining()`. -/
  gasRemaining : σ → Nat
  /-- `vm.start_new_l2_block(l2_block_env)`. -/
  startNewL2Block : L2BlockEnv → σ → σ
  /-- `storage_view.witness_block_state()` (the storage view is part of `σ`). -/
  witnessBlockState : σ → WitnessBlockState

/-- A `VmInstance<S, HistoryEnabled>` together with its storage view: the
current abstract state plus the stack of snapshots (head = most recent). -/
structure VmState (σ : Type) where
  state : σ
  snapshots : List σ
deriving DecidableEq, Repr

/-- `vm.make_snapshot()`: push the current state. -/
def VmState.make_snapshot {σ : Type} (vm : VmState σ) : VmState σ :=
  ⟨vm.state, vm.state :: vm.snapshots⟩

/-- `vm.rollback_to_the_latest_snapshot()`: restore and pop the most recent
snapshot; panics (`none`) when no snapshot exists. -/
def VmState.rollback_to_the_latest_snapshot {σ : Type} :
    VmState σ → Option (VmState σ)
  | ⟨_, []⟩ => none
  | ⟨_, s :: rest⟩ => some ⟨s, rest⟩

/-- `vm.pop_snapshot_no_rollback()`: discard the most recent snapshot, keeping
the current state (effects are committed); panics (`none`) when none exists. -/
def VmState.pop_snapshot_no_rollback {σ : Type} :
    VmState σ → Option (VmState σ)
  | ⟨_, []⟩ => none
  | ⟨st, _ :: rest⟩ => some ⟨st, rest⟩

/-- Instrumentation: the VM operations the engine performs, in order. -/
inductive VmEvent where
  | MakeSnapshot
  | RollbackToTheLatestSnapshot
  | PopSnapshotNoRollback
  | InspectTransactionWithBytecodeCompression (with_compression : Bool)
  | ExecuteBootloader
deriving DecidableEq, Repr

/-- `state_keeper::batch_executor::TxExecutionResult`. -/
inductive TxExecutionResult where
  | Success (tx_result : VmExecutionResultAndLogs)
      (tx_metrics : ExecutionMetricsForCriteria)
      (bootloader_dry_run_metrics : ExecutionMetricsForCriteria)
      (bootloader_dry_run_result : VmExecutionResultAndLogs)
      (compressed_bytecodes : List CompressedBytecodeInfo)
      (call_tracer_result : List Call)
      (gas_remaining : Nat)
  | RejectedByVm (reason : Halt)
  | BootloaderOutOfGasForTx
  | BootloaderOutOfGasForBlockTip
deriving DecidableEq, Repr

/-- The per-batch configuration of the engine (`CommandReceiver` fields; the
command channel itself is embedded as the command list fed to `run`). -/
structure CommandReceiver where
  save_call_traces : Bool
  max_allowed_tx_gas_limit : Nat
  optional_bytecode_compression : Bool
deriving DecidableEq, Repr

/-- `CommandReceiver::execute_tx_in_vm_with_optional_compression`.  Snapshot;
execute with compression; on publication `Ok` discard the snapshot and keep
the effects; on publication `Err` roll back and re-execute without
compression, where a second publication failure is a panic (`none`,
"Compression cannot fail if we do not apply it"). -/
def execute_tx_in_vm_with_optional_compression {σ : Type}
    (self : CommandReceiver) (B : VmBehavior σ) (tx : Transaction)
    (vm : VmState σ) :
    Option ((VmExecutionResultAndLogs × List CompressedBytecodeInfo × List Call)
      × VmState σ × List VmEvent) :=
  -- Saving the snapshot before executing
  let vm1 := vm.make_snapshot
  let out := B.inspectTransactionWithBytecodeCompression vm1.state tx true
  if out.publish then
    let vm2 : VmState σ := { vm1 with state := out.state }
    let compressed_bytecodes := B.getLastTxCompressedBytecodes vm2.state
    match vm2.pop_snapshot_no_rollback with
    | none => none
    | some vm3 =>
      let trace := if self.save_call_traces then out.trace else []
      some ((out.result, compressed_bytecodes, trace), vm3,
        [.MakeSnapshot, .InspectTransactionWithBytecodeCompression true,
         .PopSnapshotNoRollback])
  else
    match ({ vm1 with state := out.state } : VmState σ).rollback_to_the_latest_snapshot with
    | none => none
    | some vm2 =>
      let out2 := B.inspectTransactionWithBytecodeCompression vm2.state tx false
      if out2.publish then
        let vm3 : VmState σ := { vm2 with state := out2.state }
        let compressed_bytecodes := B.getLastTxCompressedBytecodes vm3.state
        let trace := if self.save_call_traces then out2.trace else []
        some ((out2.result, compressed_bytecodes, trace), vm3,
          [.MakeSnapshot, .InspectTransactionWithBytecodeCompression true,
           .RollbackToTheLatestSnapshot,
           .InspectTransactionWithBytecodeCompression false])
      else
        -- result.0.expect: Compression cannot fail if we do not apply it
        none

/-- `CommandReceiver::execute_tx_in_vm`: a single execution with compression
attempted; if publication fails the result is overridden with a
`FailedToPublishCompressedBytecodes` halt and empty bytecode/trace lists. -/
def execute_tx_in_vm {σ : Type} (self : CommandReceiver) (B : VmBehavior σ)
    (tx : Transaction) (vm : VmState σ) :
    (VmExecutionResultAndLogs × List CompressedBytecodeInfo × List Call)
      × VmState σ × List VmEvent :=
  let out := B.inspectTransactionWithBytecodeCompression vm.state tx true
  let vm1 : VmState σ := { vm with state := out.state }
  if out.publish then
    let compressed_bytecodes := B.getLastTxCompressedBytecodes vm1.state
    let trace := if self.save_call_traces then out.trace else []
    ((out.result, compressed_bytecodes, trace), vm1,
      [.InspectTransactionWithBytecodeCompression true])
  else
    -- Transaction failed to publish bytecodes, we reject it so initiator does not pay a fee.
    (({ out.result with result := .Halt .FailedToPublishCompressedBytecodes }, [], []),
      vm1, [.InspectTransactionWithBytecodeCompression true])

/-- The dispatch inside `execute_tx` between the two execution paths,
selected by `optional_bytecode_compression`. -/
def execute_tx_inner {σ : Type} (self : CommandReceiver) (B : VmBehavior σ)
    (tx : Transaction) (vm : VmState σ) :
    Option ((VmExecutionResultAndLogs × List CompressedBytecodeInfo × List Call)
      × VmState σ × List VmEvent) :=
  if self.optional_bytecode_compression then
    execute_tx_in_vm_with_optional_compression self B tx vm
  else
    some (execute_tx_in_vm self B tx vm)

/-- `CommandReceiver::dryrun_block_tip`: snapshot, execute the bootloader
(block-tip finalization) speculatively, collect metrics, and roll back to the
snapshot unconditionally. -/
def dryrun_block_tip {σ : Type} (B : VmBehavior σ) (vm : VmState σ) :
    Option ((VmExecutionResultAndLogs × ExecutionMetricsForCriteria)
      × VmState σ × List VmEvent) :=
  -- Save pre-`execute_till_block_end` VM snapshot.
  let vm1 := vm.make_snapshot
  let p := B.executeBootloader vm1.state
  let block_tip_result := p.1
  let vm2 : VmState σ := { vm1 with state := p.2 }
  let metrics := ExecutionMetricsForCriteria.new none block_tip_result
  -- Rollback to the pre-`execute_till_block_end` state.
  match vm2.rollback_to_the_latest_snapshot with
  | none => none
  | some vm3 =>
    some ((block_tip_result, metrics), vm3,
      [.MakeSnapshot, .ExecuteBootloader, .RollbackToTheLatestSnapshot])

/-- `CommandReceiver::execute_tx`: snapshot; reject over-limit gas; execute
via the configured path; map transaction halts; otherwise dry-run the block
tip and map its outcome (`unreachable!` / `panic!` on dry-run revert or on any
dry-run halt other than `BootloaderOutOfGas` are embedded as `none`). -/
def execute_tx {σ : Type} (self : CommandReceiver) (B : VmBehavior σ)
    (tx : Transaction) (vm : VmState σ) :
    Option (TxExecutionResult × VmState σ × List VmEvent) :=
  -- Save pre-`execute_next_tx` VM snapshot.
  let vm1 := vm.make_snapshot
  -- Reject transactions with too big gas limit.
  if tx.gas_limit > self.max_allowed_tx_gas_limit then
    some (.RejectedByVm .TooBigGasLimit, vm1, [.MakeSnapshot])
  else
    -- Execute the transaction.
    match execute_tx_inner self B tx vm1 with
    | none => none
    | some ((tx_result, compressed_bytecodes, call_tracer_result), vm2, ev1) =>
      match tx_result.result with
      | .Halt .BootloaderOutOfGas =>
        some (.BootloaderOutOfGasForTx, vm2, .MakeSnapshot :: ev1)
      | .Halt reason =>
        some (.RejectedByVm reason, vm2, .MakeSnapshot :: ev1)
      | _ =>
        let tx_metrics := ExecutionMetricsForCriteria.new (some tx) tx_result
        let gas_remaining := B.gasRemaining vm2.state
        match dryrun_block_tip B vm2 with
        | none => none
        | some ((bootloader_dry_run_result, bootloader_dry_run_metrics), vm3, ev2) =>
          match bootloader_dry_run_result.result with
          | .Success _ =>
            some (.Success tx_result tx_metrics bootloader_dry_run_metrics
                bootloader_dry_run_result compressed_bytecodes call_tracer_result
                gas_remaining,
              vm3, .MakeSnapshot :: (ev1 ++ ev2))
          | .Revert _ => none   -- unreachable!("VM must not revert when finalizing block ...")
          | .Halt .BootloaderOutOfGas =>
            some (.BootloaderOutOfGasForBlockTip, vm3, .MakeSnapshot :: (ev1 ++ ev2))
          | .Halt _ => none     -- panic!("VM must not revert when finalizing block ...")

/-- `CommandReceiver::rollback_last_tx`: roll back to the latest snapshot. -/
def rollback_last_tx {σ : Type} (vm : VmState σ) :
    Option (VmState σ × List VmEvent) :=
  match vm.rollback_to_the_latest_snapshot with
  | none => none
  | some vm1 => some (vm1, [.RollbackToTheLatestSnapshot])

/-- `CommandReceiver::start_next_miniblock`: forwarded to the VM. -/
def start_next_miniblock {σ : Type} (B : VmBehavior σ) (l2_block_env : L2BlockEnv)
    (vm : VmState σ) : VmState σ :=
  { vm with state := B.startNewL2Block l2_block_env vm.state }

/-- `CommandReceiver::finish_batch`: run real finalization; a failed (revert
or halt) block-tip result is a panic (`none`). -/
def finish_batch {σ : Type} (B : VmBehavior σ) (vm : VmState σ) :
    Option (FinishedL1Batch × VmState σ) :=
  let p := B.finishBatchVm vm.state
  if p.1.block_tip_execution_result.result.is_failed then
    none   -- panic!("VM must not fail when finalizing block ...")
  else
    some (p.1, { vm with state := p.2 })

/-- `state_keeper::batch_executor::Command`. -/
inductive Command where
  | ExecuteTx (tx : Transaction)
  | RollbackLastTx
  | StartNextMiniblock (l2_block_env : L2BlockEnv)
  | FinishBatch
deriving DecidableEq, Repr

/-- The value sent on the reply channel of a command. -/
inductive Reply where
  | TxResult (r : TxExecutionResult)
  | Ack
  | Finished (batch : FinishedL1Batch) (witness : Option WitnessBlockState)
deriving DecidableEq, Repr

/-- How the command loop ended: `Sealed` after `FinishBatch` (with the
commands that were never read), or `ChannelClosed` when the command list is
exhausted mid-batch (state keeper exited with an unfinished batch). -/
inductive RunEnd (σ : Type) where
  | Sealed (vm : VmState σ) (unprocessed : List Command)
  | ChannelClosed (vm : VmState σ)
deriving DecidableEq, Repr

/-- The body of the command loop of `CommandReceiver::run`, over the sequence of
commands the caller will send; returns the replies sent, in order.  A panic
anywhere is `none`. -/
def run_loop {σ : Type} (self : CommandReceiver) (B : VmBehavior σ)
    (upload_witness_inputs_to_gcs : Bool) (vm : VmState σ) :
    List Command → Option (List Reply × RunEnd σ)
  | [] => some ([], .ChannelClosed vm)
  | .ExecuteTx tx :: rest =>
    match execute_tx self B tx vm with
    | none => none
    | some (result, vm1, _) =>
      match run_loop self B upload_witness_inputs_to_gcs vm1 rest with
      | none => none
      | some (replies, e) => some (.TxResult result :: replies, e)
  | .RollbackLastTx :: rest =>
    match rollback_last_tx vm with
    | none => none
    | some (vm1, _) =>
      match run_loop self B upload_witness_inputs_to_gcs vm1 rest with
      | none => none
      | some (replies, e) => some (.Ack :: replies, e)
  | .StartNextMiniblock l2_block_env :: rest =>
    match run_loop self B upload_witness_inputs_to_gcs
        (start_next_miniblock B l2_block_env vm) rest with
    | none => none
    | some (replies, e) => some (.Ack :: replies, e)
  | .FinishBatch :: rest =>
    match finish_batch B vm with
    | none => none
    | some (vm_block_result, vm1) =>
      let witness_block_state :=
        if upload_witness_inputs_to_gcs then some (B.witnessBlockState vm1.state)
        else none
      some ([.Finished vm_block_result witness_block_state], .Sealed vm1 rest)

/-- `CommandReceiver::run`: build the storage view and the VM from the
secondary storage (initial abstract state) and process commands. -/
def CommandReceiver.run {σ : Type} (self : CommandReceiver) (B : VmBehavior σ)
    (secondary_storage : σ) (upload_witness_inputs_to_gcs : Bool)
    (cmds : List Command) : Option (List Reply × RunEnd σ) :=
  run_loop self B upload_witness_inputs_to_gcs ⟨secondary_storage, []⟩ cmds

/-- `MainBatchExecutor` configuration (its storage factory is represented by
the acquisition outcome passed to `init_batch`). -/
structure MainBatchExecutor where
  save_call_traces : Bool
  max_allowed_tx_gas_limit : Nat
  upload_witness_inputs_to_gcs : Bool
  optional_bytecode_compression : Bool
deriving DecidableEq, Repr

/-- The handle `init_batch` returns.  `task` is the outcome of the spawned
blocking task: `none` when storage acquisition yielded no storage (the
executor loop never ran); `some o` when the loop ran with outcome `o`. -/
structure BatchExecutorHandle (σ : Type) where
  task : Option (Option (List Reply × RunEnd σ))
deriving DecidableEq, Repr

/-- `MainBatchExecutor::init_batch`.  `access_storage_result` is the outcome
of `factory.access_storage(..)` after its `expect` (an `Err` there aborts
before anything is observable): `none` means acquisition yielded no storage
(e.g. a shutdown was requested).  The handle is constructed and returned
unconditionally; the spawned task runs the command loop only when storage was
acquired. -/
def init_batch {σ : Type} (self : MainBatchExecutor) (B : VmBehavior σ)
    (access_storage_result : Option σ) (cmds : List Command) :
    Option (BatchExecutorHandle σ) :=
  let executor : CommandReceiver :=
    { save_call_traces := self.save_call_traces
      max_allowed_tx_gas_limit := self.max_allowed_tx_gas_limit
      optional_bytecode_compression := self.optional_bytecode_compression }
  some
    { task := access_storage_result.map (fun storage =>
        executor.run B storage self.upload_witness_inputs_to_gcs cmds) }

/-- A concrete VM behavior over `σ := Nat` used to evaluate the engine on
explicit inputs.  Every execution advances the state by one, publishes (or
not) according to the given flags, returns the given execution results, and
collects a nonempty call trace. -/
def sampleBehavior (publish1 publish2 : Bool) (res1 res2 tip : ExecutionResult) :
    VmBehavior Nat :=
  { inspectTransactionWithBytecodeCompression := fun s _tx with_compression =>
      { publish := if with_compression then publish1 else publish2
        result := { result := if with_compression then res1 else res2
                    logs := 0, statistics := 0 }
        trace := [⟨s⟩]
        state := s + 1 }
    getLastTxCompressedBytecodes := fun s => [⟨s, 0⟩]
    executeBootloader := fun s =>
      ({ result := tip, logs := 0, statistics := 0 }, s + 10)
    finishBatchVm := fun s =>
      ({ block_tip_execution_result := { result := tip, logs := 0, statistics := 0 }
         rest := 0 }, s + 100)
    gasRemaining := fun s => s
    startNewL2Block := fun _ s => s + 1
    witnessBlockState := fun s => ⟨s⟩ }

/-! ### Helper characterizations

These lemmas compute the engine functions into branch-free normal forms on
the outputs of the VM behavior; the snapshot operations all act on stacks whose
head was pushed by the same function, so they reduce definitionally. -/

theorem dryrun_block_tip_characterization {σ : Type} (B : VmBehavior σ)
    (vm : VmState σ) :
    dryrun_block_tip B vm =
      some (((B.executeBootloader vm.state).1,
             ExecutionMetricsForCriteria.new none (B.executeBootloader vm.state).1),
        vm,
        [.MakeSnapshot, .ExecuteBootloader, .RollbackToTheLatestSnapshot]) :=
  rfl

theorem execute_tx_in_vm_characterization {σ : Type} (self : CommandReceiver)
    (B : VmBehavior σ) (tx : Transaction) (vm : VmState σ) :
    execute_tx_in_vm self B tx vm =
      (if (B.inspectTransactionWithBytecodeCompression vm.state tx true).publish then
        (((B.inspectTransactionWithBytecodeCompression vm.state tx true).result,
          B.getLastTxCompressedBytecodes
            (B.inspectTransactionWithBytecodeCompression vm.state tx true).state,
          if self.save_call_traces then
            (B.inspectTransactionWithBytecodeCompression vm.state tx true).trace
          else []),
          ⟨(B.inspectTransactionWithBytecodeCompression vm.state tx true).state,
           vm.snapshots⟩,
          [.InspectTransactionWithBytecodeCompression true])
       else
        (({ (B.inspectTransactionWithBytecodeCompression vm.state tx true).result with
            result := .Halt .FailedToPublishCompressedBytecodes },
          [], []),
          ⟨(B.inspectTransactionWithBytecodeCompression vm.state tx true).state,
           vm.snapshots⟩,
          [.InspectTransactionWithBytecodeCompression true])) :=
  rfl

theorem execute_tx_in_vm_with_optional_compression_characterization {σ : Type}
    (self : CommandReceiver) (B : VmBehavior σ) (tx : Transaction) (vm : VmState σ) :
    execute_tx_in_vm_with_optional_compression self B tx vm =
      (if (B.inspectTransactionWithBytecodeCompression vm.state tx true).publish then
        some (((B.inspectTransactionWithBytecodeCompression vm.state tx true).result,
               B.getLastTxCompressedBytecodes
                 (B.inspectTransactionWithBytecodeCompression vm.state tx true).state,
               if self.save_call_traces then
                 (B.inspectTransactionWithBytecodeCompression vm.state tx true).trace
               else []),
          ⟨(B.inspectTransactionWithBytecodeCompression vm.state tx true).state,
           vm.snapshots⟩,
          [.MakeSnapshot, .InspectTransactionWithBytecodeCompression true,
           .PopSnapshotNoRollback])
       else if (B.inspectTransactionWithBytecodeCompression vm.state tx false).publish then
        some (((B.inspectTransactionWithBytecodeCompression vm.state tx false).result,
               B.getLastTxCompressedBytecodes
                 (B.inspectTransactionWithBytecodeCompression vm.state tx false).state,
               if self.save_call_traces then
                 (B.inspectTransactionWithBytecodeCompression vm.state tx false).trace
               else []),
          ⟨(B.inspectTransactionWithBytecodeCompression vm.state tx false).state,
           vm.snapshots⟩,
          [.MakeSnapshot, .InspectTransactionWithBytecodeCompression true,
           .RollbackToTheLatestSnapshot,
           .InspectTransactionWithBytecodeCompression false])
       else none) :=
  rfl

/-- Both execution paths leave the snapshot stack exactly as they found it
(the with-compression path resolves its own snapshot in every returning
branch), and their event lists create exactly as many snapshots as they
resolve. -/
theorem execute_tx_inner_shape {σ : Type} (self : CommandReceiver)
    (B : VmBehavior σ) (tx : Transaction) (vm : VmState σ)
    (t : VmExecutionResultAndLogs × List CompressedBytecodeInfo × List Call)
    (vm' : VmState σ) (ev : List VmEvent)
    (h : execute_tx_inner self B tx vm = some (t, vm', ev)) :
    vm'.snapshots = vm.snapshots ∧
      ev.count .MakeSnapshot =
        ev.count .RollbackToTheLatestSnapshot + ev.count .PopSnapshotNoRollback := by
  unfold execute_tx_inner at h
  by_cases hopt : self.optional_bytecode_compression = true
  · rw [if_pos hopt,
      execute_tx_in_vm_with_optional_compression_characterization] at h
    by_cases hp1 :
        (B.inspectTransactionWithBytecodeCompression vm.state tx true).publish = true
    · rw [if_pos hp1] at h
      simp only [Option.some.injEq, Prod.mk.injEq] at h
      obtain ⟨-, rfl, rfl⟩ := h
      exact ⟨rfl, by decide⟩
    · rw [if_neg hp1] at h
      by_cases hp2 :
          (B.inspectTransactionWithBytecodeCompression vm.state tx false).publish = true
      · rw [if_pos hp2] at h
        simp only [Option.some.injEq, Prod.mk.injEq] at h
        obtain ⟨-, rfl, rfl⟩ := h
        exact ⟨rfl, by decide⟩
      · rw [if_neg hp2] at h
        exact absurd h (by simp)
  · rw [if_neg hopt, Option.some.injEq,
      execute_tx_in_vm_characterization] at h
    by_cases hp1 :
        (B.inspectTransactionWithBytecodeCompression vm.state tx true).publish = true
    · rw [if_pos hp1] at h
      simp only [Prod.mk.injEq] at h
      obtain ⟨-, rfl, rfl⟩ := h
      exact ⟨rfl, by decide⟩
    · rw [if_neg hp1] at h
      simp only [Prod.mk.injEq] at h
      obtain ⟨-, rfl, rfl⟩ := h
      exact ⟨rfl, by decide⟩

/-- Every returning path of `execute_tx` leaves the snapshot stack equal to
the incoming stack with exactly one new, unresolved snapshot on top — the
pre-transaction snapshot, whose saved state is the pre-transaction state —
and its event list records exactly one more snapshot creation than snapshot
resolutions. -/
theorem execute_tx_shape {σ : Type} (self : CommandReceiver) (B : VmBehavior σ)
    (tx : Transaction) (vm : VmState σ) (r : TxExecutionResult) (vm1 : VmState σ)
    (ev : List VmEvent)
    (h : execute_tx self B tx vm = some (r, vm1, ev)) :
    vm1.snapshots = vm.state :: vm.snapshots ∧
      ev.count .MakeSnapshot =
        ev.count .RollbackToTheLatestSnapshot + ev.count .PopSnapshotNoRollback + 1 := by
  unfold execute_tx at h
  split at h
  · simp only [Option.some.injEq, Prod.mk.injEq] at h
    obtain ⟨-, rfl, rfl⟩ := h
    exact ⟨rfl, by decide⟩
  · dsimp only [] at h
    split at h
    · exact absurd h (by simp)
    next tx_result cb tr vm2 ev1 heq =>
      obtain ⟨hsnap, hcnt⟩ := execute_tx_inner_shape _ _ _ _ _ _ _ heq
      rw [VmState.make_snapshot] at hsnap
      dsimp only [dryrun_block_tip_characterization] at h
      split at h
      case _ => -- transaction halt, BootloaderOutOfGas
        simp only [Option.some.injEq, Prod.mk.injEq] at h
        obtain ⟨-, rfl, rfl⟩ := h
        refine ⟨hsnap, ?_⟩
        simp only [List.count_cons, List.count_append, List.count_nil,
          beq_iff_eq, reduceCtorEq, if_false, if_true, reduceIte]
        omega
      case _ => -- transaction halt, other reason
        simp only [Option.some.injEq, Prod.mk.injEq] at h
        obtain ⟨-, rfl, rfl⟩ := h
        refine ⟨hsnap, ?_⟩
        simp only [List.count_cons, List.count_append, List.count_nil,
          beq_iff_eq, reduceCtorEq, if_false, if_true, reduceIte]
        omega
      case _ => -- transaction applied: the dry-run outcome decides
        split at h
        · simp only [Option.some.injEq, Prod.mk.injEq] at h
          obtain ⟨-, rfl, rfl⟩ := h
          refine ⟨hsnap, ?_⟩
          simp only [List.count_cons, List.count_append, List.count_nil,
            beq_iff_eq, reduceCtorEq, if_false, if_true, reduceIte]
          omega
        · exact absurd h (by simp)
        · simp only [Option.some.injEq, Prod.mk.injEq] at h
          obtain ⟨-, rfl, rfl⟩ := h
          refine ⟨hsnap, ?_⟩
          simp only [List.count_cons, List.count_append, List.count_nil,
            beq_iff_eq, reduceCtorEq, if_false, if_true, reduceIte]
          omega
        · exact absurd h (by simp)

/-! ### Claims -/

/-- C3: for every transaction whose declared gas limit strictly exceeds the
configured `max_allowed_tx_gas_limit`, `execute_tx` returns `RejectedByVm`
with reason `TooBigGasLimit`; the conclusion holds for every VM behavior `B`,
the returned state is the untouched pre-transaction state (only the
pre-attempt snapshot was pushed), and the event list contains no VM execution
event — the underlying VM transaction execution is never invoked. -/
theorem C3_too_big_gas_limit_rejected {σ : Type} (self : CommandReceiver)
    (B : VmBehavior σ) (tx : Transaction) (vm : VmState σ)
    (h : tx.gas_limit > self.max_allowed_tx_gas_limit) :
    execute_tx self B tx vm =
      some (.RejectedByVm .TooBigGasLimit, vm.make_snapshot, [.MakeSnapshot]) := by
  unfold execute_tx
  rw [if_pos h]

/-- C3 witness: a transaction with gas limit 11 against a ceiling of 10. -/
theorem C3_witness :
    (⟨11, 0⟩ : Transaction).gas_limit >
        (⟨true, 10, true⟩ : CommandReceiver).max_allowed_tx_gas_limit ∧
    execute_tx ⟨true, 10, true⟩
        (sampleBehavior true true (.Success 0) (.Success 0) (.Success 0))
        ⟨11, 0⟩ ⟨0, []⟩ =
      some (.RejectedByVm .TooBigGasLimit, ⟨0, [0]⟩, [.MakeSnapshot]) :=
  ⟨by decide, C3_too_big_gas_limit_rejected _ _ _ _ (by decide)⟩

/-- C7: when the own execution result of a (gas-admissible) transaction is a
halt, `execute_tx` returns `BootloaderOutOfGasForTx` for the
`BootloaderOutOfGas` halt reason and `RejectedByVm` carrying the same reason
for every other halt reason. -/
theorem C7_tx_halt_mapping {σ : Type} (self : CommandReceiver) (B : VmBehavior σ)
    (tx : Transaction) (vm : VmState σ) (tx_result : VmExecutionResultAndLogs)
    (cb : List CompressedBytecodeInfo) (tr : List Call) (vm2 : VmState σ)
    (ev1 : List VmEvent) (reason : Halt)
    (hgas : ¬ tx.gas_limit > self.max_allowed_tx_gas_limit)
    (hinner : execute_tx_inner self B tx vm.make_snapshot =
      some ((tx_result, cb, tr), vm2, ev1))
    (hhalt : tx_result.result = .Halt reason) :
    execute_tx self B tx vm =
      some ((if reason = .BootloaderOutOfGas then .BootloaderOutOfGasForTx
             else .RejectedByVm reason), vm2, .MakeSnapshot :: ev1) := by
  unfold execute_tx
  rw [if_neg hgas]
  dsimp only []
  rw [hinner]
  dsimp only []
  rw [hhalt]
  cases reason <;> rfl

/-- C7 witness: a transaction halting with a non-out-of-gas reason is
rejected with that same reason. -/
theorem C7_witness :
    (¬ (⟨10, 0⟩ : Transaction).gas_limit >
        (⟨true, 100, false⟩ : CommandReceiver).max_allowed_tx_gas_limit) ∧
    execute_tx_inner ⟨true, 100, false⟩
        (sampleBehavior true true (.Halt (.other 3)) (.Success 0) (.Success 0))
        ⟨10, 0⟩ (VmState.make_snapshot ⟨0, []⟩) =
      some ((⟨.Halt (.other 3), 0, 0⟩, [⟨1, 0⟩], [⟨0⟩]), ⟨1, [0]⟩,
        [.InspectTransactionWithBytecodeCompression true]) ∧
    (⟨.Halt (.other 3), 0, 0⟩ : VmExecutionResultAndLogs).result = .Halt (.other 3) ∧
    execute_tx ⟨true, 100, false⟩
        (sampleBehavior true true (.Halt (.other 3)) (.Success 0) (.Success 0))
        ⟨10, 0⟩ ⟨0, []⟩ =
      some (.RejectedByVm (.other 3), ⟨1, [0]⟩,
        [.MakeSnapshot, .InspectTransactionWithBytecodeCompression true]) :=
  ⟨by decide, by decide, by decide,
    C7_tx_halt_mapping ⟨true, 100, false⟩
      (sampleBehavior true true (.Halt (.other 3)) (.Success 0) (.Success 0))
      ⟨10, 0⟩ ⟨0, []⟩ ⟨.Halt (.other 3), 0, 0⟩ [⟨1, 0⟩] [⟨0⟩] ⟨1, [0]⟩
      [.InspectTransactionWithBytecodeCompression true] (.other 3)
      (by decide) (by decide) (by decide)⟩

/-- C8: with bytecode compression disabled by configuration
(`optional_bytecode_compression = false`), a gas-admissible transaction is
executed exactly once, with compression attempted (the event list holds a
single execution, with compression flag `true`); if compression publication
fails, `execute_tx` returns `RejectedByVm{FailedToPublishCompressedBytecodes}`
— the transaction is not admitted. -/
theorem C8_disabled_compression_publish_failure {σ : Type}
    (self : CommandReceiver) (B : VmBehavior σ) (tx : Transaction)
    (vm : VmState σ)
    (hopt : self.optional_bytecode_compression = false)
    (hgas : ¬ tx.gas_limit > self.max_allowed_tx_gas_limit)
    (hpub : (B.inspectTransactionWithBytecodeCompression vm.state tx true).publish
      = false) :
    execute_tx self B tx vm =
      some (.RejectedByVm .FailedToPublishCompressedBytecodes,
        ⟨(B.inspectTransactionWithBytecodeCompression vm.state tx true).state,
         vm.state :: vm.snapshots⟩,
        [.MakeSnapshot, .InspectTransactionWithBytecodeCompression true]) := by
  unfold execute_tx
  rw [if_neg hgas]
  dsimp only []
  unfold execute_tx_inner
  rw [hopt]
  dsimp only [execute_tx_in_vm_characterization, VmState.make_snapshot]
  rw [hpub]
  rfl

/-- C8 witness: compression-disabled engine, publication failure. -/
theorem C8_witness :
    ((⟨true, 100, false⟩ : CommandReceiver).optional_bytecode_compression = false) ∧
    (¬ (⟨10, 0⟩ : Transaction).gas_limit >
        (⟨true, 100, false⟩ : CommandReceiver).max_allowed_tx_gas_limit) ∧
    (((sampleBehavior false true (.Success 0) (.Success 0) (.Success 0)
        ).inspectTransactionWithBytecodeCompression 0 ⟨10, 0⟩ true).publish = false) ∧
    execute_tx ⟨true, 100, false⟩
        (sampleBehavior false true (.Success 0) (.Success 0) (.Success 0))
        ⟨10, 0⟩ ⟨0, []⟩ =
      some (.RejectedByVm .FailedToPublishCompressedBytecodes, ⟨1, [0]⟩,
        [.MakeSnapshot, .InspectTransactionWithBytecodeCompression true]) :=
  ⟨by decide, by decide, by decide,
    C8_disabled_compression_publish_failure _ _ _ _ (by decide) (by decide) (by decide)⟩

/-- C10: in the compression-disabled execution path, when publication fails,
the triple built by `execute_tx_in_vm` carries an empty compressed-bytecode
list and an empty call trace — even when tracing is enabled
(`save_call_traces = true`) and the traced execution produced calls. -/
theorem C10_publish_failure_empty_artifacts {σ : Type} (self : CommandReceiver)
    (B : VmBehavior σ) (tx : Transaction) (vm : VmState σ)
    (_htrace : self.save_call_traces = true)
    (hpub : (B.inspectTransactionWithBytecodeCompression vm.state tx true).publish
      = false)
    (_hcalls : (B.inspectTransactionWithBytecodeCompression vm.state tx true).trace
      ≠ []) :
    execute_tx_in_vm self B tx vm =
      (({ (B.inspectTransactionWithBytecodeCompression vm.state tx true).result with
          result := .Halt .FailedToPublishCompressedBytecodes }, [], []),
        ⟨(B.inspectTransactionWithBytecodeCompression vm.state tx true).state,
         vm.snapshots⟩,
        [.InspectTransactionWithBytecodeCompression true]) := by
  rw [execute_tx_in_vm_characterization, hpub]
  rfl

/-- C10 witness: tracing enabled, a nonempty collected trace, publication
failure — the returned trace and bytecode list are nonetheless empty. -/
theorem C10_witness :
    ((⟨true, 100, false⟩ : CommandReceiver).save_call_traces = true) ∧
    (((sampleBehavior false true (.Success 0) (.Success 0) (.Success 0)
        ).inspectTransactionWithBytecodeCompression 0 ⟨10, 0⟩ true).publish = false) ∧
    (((sampleBehavior false true (.Success 0) (.Success 0) (.Success 0)
        ).inspectTransactionWithBytecodeCompression 0 ⟨10, 0⟩ true).trace ≠ []) ∧
    execute_tx_in_vm ⟨true, 100, false⟩
        (sampleBehavior false true (.Success 0) (.Success 0) (.Success 0))
        ⟨10, 0⟩ ⟨0, []⟩ =
      ((⟨.Halt .FailedToPublishCompressedBytecodes, 0, 0⟩, [], []), ⟨1, []⟩,
        [.InspectTransactionWithBytecodeCompression true]) :=
  ⟨by decide, by decide, by decide,
    C10_publish_failure_empty_artifacts _ _ _ _ (by decide) (by decide) (by decide)⟩

/-- C1: for every gas-admissible transaction the VM applies (result not a
halt), `execute_tx` immediately performs the speculative block-tip dry run:
`dryrun_block_tip` snapshots, executes the finalization routine and rolls
back to the snapshot regardless of the outcome (its returned state is exactly
the pre-dry-run state `vm2`, its events are snapshot/execute/rollback);
`execute_tx` then returns `Success` if the dry run succeeded,
`BootloaderOutOfGasForBlockTip` if it halted with `BootloaderOutOfGas`, and
aborts the process (`none`) on any other dry-run halt or on a dry-run
revert. -/
theorem C1_applied_tx_dry_run_and_mapping {σ : Type} (self : CommandReceiver)
    (B : VmBehavior σ) (tx : Transaction) (vm : VmState σ)
    (tx_result : VmExecutionResultAndLogs) (cb : List CompressedBytecodeInfo)
    (tr : List Call) (vm2 : VmState σ) (ev1 : List VmEvent)
    (hgas : ¬ tx.gas_limit > self.max_allowed_tx_gas_limit)
    (hinner : execute_tx_inner self B tx vm.make_snapshot =
      some ((tx_result, cb, tr), vm2, ev1))
    (hnohalt : ∀ reason, tx_result.result ≠ .Halt reason) :
    dryrun_block_tip B vm2 =
      some (((B.executeBootloader vm2.state).1,
             ExecutionMetricsForCriteria.new none (B.executeBootloader vm2.state).1),
        vm2,
        [.MakeSnapshot, .ExecuteBootloader, .RollbackToTheLatestSnapshot]) ∧
    execute_tx self B tx vm =
      (match (B.executeBootloader vm2.state).1.result with
       | .Success _ =>
         some (.Success tx_result (ExecutionMetricsForCriteria.new (some tx) tx_result)
             (ExecutionMetricsForCriteria.new none (B.executeBootloader vm2.state).1)
             (B.executeBootloader vm2.state).1 cb tr (B.gasRemaining vm2.state),
           vm2,
           .MakeSnapshot :: (ev1 ++
             [.MakeSnapshot, .ExecuteBootloader, .RollbackToTheLatestSnapshot]))
       | .Revert _ => none
       | .Halt .BootloaderOutOfGas =>
         some (.BootloaderOutOfGasForBlockTip, vm2,
           .MakeSnapshot :: (ev1 ++
             [.MakeSnapshot, .ExecuteBootloader, .RollbackToTheLatestSnapshot]))
       | .Halt _ => none) := by
  refine ⟨dryrun_block_tip_characterization B vm2, ?_⟩
  unfold execute_tx
  rw [if_neg hgas]
  dsimp only []
  rw [hinner]
  dsimp only [dryrun_block_tip_characterization]
  cases hres : tx_result.result with
  | Success o => rfl
  | Revert o => rfl
  | Halt reason => exact absurd hres (hnohalt reason)

/-- C1 witness: an applied (successful) transaction followed by a successful
dry run yields `Success` carrying the dry-run result and metrics. -/
theorem C1_witness :
    (¬ (⟨10, 0⟩ : Transaction).gas_limit >
        (⟨true, 100, false⟩ : CommandReceiver).max_allowed_tx_gas_limit) ∧
    execute_tx_inner ⟨true, 100, false⟩
        (sampleBehavior true true (.Success 5) (.Success 0) (.Success 7))
        ⟨10, 0⟩ (VmState.make_snapshot ⟨0, []⟩) =
      some ((⟨.Success 5, 0, 0⟩, [⟨1, 0⟩], [⟨0⟩]), ⟨1, [0]⟩,
        [.InspectTransactionWithBytecodeCompression true]) ∧
    dryrun_block_tip (sampleBehavior true true (.Success 5) (.Success 0) (.Success 7))
        ⟨1, [0]⟩ =
      some ((⟨.Success 7, 0, 0⟩, ⟨none, ⟨.Success 7, 0, 0⟩⟩), ⟨1, [0]⟩,
        [.MakeSnapshot, .ExecuteBootloader, .RollbackToTheLatestSnapshot]) ∧
    execute_tx ⟨true, 100, false⟩
        (sampleBehavior true true (.Success 5) (.Success 0) (.Success 7))
        ⟨10, 0⟩ ⟨0, []⟩ =
      some (.Success ⟨.Success 5, 0, 0⟩ ⟨some ⟨10, 0⟩, ⟨.Success 5, 0, 0⟩⟩
          ⟨none, ⟨.Success 7, 0, 0⟩⟩ ⟨.Success 7, 0, 0⟩ [⟨1, 0⟩] [⟨0⟩] 1,
        ⟨1, [0]⟩,
        [.MakeSnapshot, .InspectTransactionWithBytecodeCompression true,
         .MakeSnapshot, .ExecuteBootloader, .RollbackToTheLatestSnapshot]) := by
  have h := C1_applied_tx_dry_run_and_mapping ⟨true, 100, false⟩
    (sampleBehavior true true (.Success 5) (.Success 0) (.Success 7))
    ⟨10, 0⟩ ⟨0, []⟩ ⟨.Success 5, 0, 0⟩ [⟨1, 0⟩] [⟨0⟩] ⟨1, [0]⟩
    [.InspectTransactionWithBytecodeCompression true]
    (by decide) (by decide) (fun r hr => ExecutionResult.noConfusion hr)
  exact ⟨by decide, by decide, h.1, h.2⟩

/-- C5: for every `ExecuteTx` that returns (rather than aborts), an
immediately following `RollbackLastTx` restores exactly the VM/storage state
from before the `ExecuteTx`: `rollback_last_tx` on the post-execution state
yields the original `vm`, and in the command loop the continuation after the
pair runs from the original `vm`. -/
theorem C5_execute_then_rollback_restores {σ : Type} (self : CommandReceiver)
    (B : VmBehavior σ) (upload : Bool) (tx : Transaction) (vm : VmState σ)
    (r : TxExecutionResult) (vm1 : VmState σ) (ev : List VmEvent)
    (rest : List Command)
    (h : execute_tx self B tx vm = some (r, vm1, ev)) :
    rollback_last_tx vm1 = some (vm, [.RollbackToTheLatestSnapshot]) ∧
    run_loop self B upload vm (.ExecuteTx tx :: .RollbackLastTx :: rest) =
      (run_loop self B upload vm rest).map
        (fun p => (.TxResult r :: .Ack :: p.1, p.2)) := by
  obtain ⟨hsnap, -⟩ := execute_tx_shape _ _ _ _ _ _ _ h
  have hrb : rollback_last_tx vm1 = some (vm, [.RollbackToTheLatestSnapshot]) := by
    unfold rollback_last_tx
    obtain ⟨s1, snaps⟩ := vm1
    simp only at hsnap
    subst hsnap
    rfl
  refine ⟨hrb, ?_⟩
  simp only [run_loop, h, hrb]
  cases hrest : run_loop self B upload vm rest with
  | none => rfl
  | some p => rfl

/-- C5 witness: a successful transaction followed by a rollback restores the
initial state; the sealed continuation sees the original state. -/
theorem C5_witness :
    execute_tx ⟨true, 100, false⟩
        (sampleBehavior true true (.Success 5) (.Success 0) (.Success 7))
        ⟨10, 0⟩ ⟨0, []⟩ =
      some (.Success ⟨.Success 5, 0, 0⟩ ⟨some ⟨10, 0⟩, ⟨.Success 5, 0, 0⟩⟩
          ⟨none, ⟨.Success 7, 0, 0⟩⟩ ⟨.Success 7, 0, 0⟩ [⟨1, 0⟩] [⟨0⟩] 1,
        ⟨1, [0]⟩,
        [.MakeSnapshot, .InspectTransactionWithBytecodeCompression true,
         .MakeSnapshot, .ExecuteBootloader, .RollbackToTheLatestSnapshot]) ∧
    rollback_last_tx (⟨1, [0]⟩ : VmState Nat) =
      some (⟨0, []⟩, [.RollbackToTheLatestSnapshot]) ∧
    run_loop ⟨true, 100, false⟩
        (sampleBehavior true true (.Success 5) (.Success 0) (.Success 7))
        false ⟨0, []⟩ [.ExecuteTx ⟨10, 0⟩, .RollbackLastTx] =
      some ([.TxResult (.Success ⟨.Success 5, 0, 0⟩ ⟨some ⟨10, 0⟩, ⟨.Success 5, 0, 0⟩⟩
          ⟨none, ⟨.Success 7, 0, 0⟩⟩ ⟨.Success 7, 0, 0⟩ [⟨1, 0⟩] [⟨0⟩] 1), .Ack],
        .ChannelClosed ⟨0, []⟩) := by
  have h := C5_execute_then_rollback_restores ⟨true, 100, false⟩
    (sampleBehavior true true (.Success 5) (.Success 0) (.Success 7))
    false ⟨10, 0⟩ ⟨0, []⟩
    (.Success ⟨.Success 5, 0, 0⟩ ⟨some ⟨10, 0⟩, ⟨.Success 5, 0, 0⟩⟩
      ⟨none, ⟨.Success 7, 0, 0⟩⟩ ⟨.Success 7, 0, 0⟩ [⟨1, 0⟩] [⟨0⟩] 1)
    ⟨1, [0]⟩
    [.MakeSnapshot, .InspectTransactionWithBytecodeCompression true,
     .MakeSnapshot, .ExecuteBootloader, .RollbackToTheLatestSnapshot]
    [] (by decide)
  exact ⟨by decide, h.1, h.2⟩

/-- C6 counterexample: the claim says that when `ExecuteTx` returns a
rejection the pre-attempt snapshot has already been resolved, so that no
unresolved snapshots remain.  On the code, a `RejectedByVm{TooBigGasLimit}`
reply is returned with the pre-attempt snapshot still on the stack: starting
from an empty snapshot stack, the returned stack is `[0]`, not `[]`. -/
theorem C6_counterexample :
    execute_tx ⟨false, 10, false⟩
        (sampleBehavior true true (.Success 0) (.Success 0) (.Success 0))
        ⟨11, 0⟩ ⟨0, []⟩ =
      some (.RejectedByVm .TooBigGasLimit, ⟨0, [0]⟩, [.MakeSnapshot]) ∧
    (⟨0, [0]⟩ : VmState Nat).snapshots ≠ (⟨0, []⟩ : VmState Nat).snapshots :=
  ⟨rfl, by decide⟩

/-- C6 (amended): every returning `ExecuteTx` — rejections included — leaves
exactly one unresolved snapshot beyond those it inherited: the pre-attempt
snapshot holding the pre-transaction state, deliberately kept so that a
subsequent `RollbackLastTx` can undo the transaction.  All auxiliary
snapshots (the compression-attempt snapshot and the dry-run snapshot) are
resolved before the reply: the event trace creates exactly one more snapshot
than it resolves. -/
theorem C6_amended_pre_attempt_snapshot_unresolved {σ : Type}
    (self : CommandReceiver) (B : VmBehavior σ) (tx : Transaction)
    (vm : VmState σ) (r : TxExecutionResult) (vm1 : VmState σ)
    (ev : List VmEvent)
    (h : execute_tx self B tx vm = some (r, vm1, ev)) :
    vm1.snapshots = vm.state :: vm.snapshots ∧
      ev.count .MakeSnapshot =
        ev.count .RollbackToTheLatestSnapshot + ev.count .PopSnapshotNoRollback + 1 :=
  execute_tx_shape self B tx vm r vm1 ev h

/-- C6 witness: a rejected transaction leaves its pre-attempt snapshot (and
only that snapshot) unresolved. -/
theorem C6_witness :
    execute_tx ⟨false, 10, false⟩
        (sampleBehavior true true (.Success 0) (.Success 0) (.Success 0))
        ⟨11, 0⟩ ⟨0, []⟩ =
      some (.RejectedByVm .TooBigGasLimit, ⟨0, [0]⟩, [.MakeSnapshot]) ∧
    ((⟨0, [0]⟩ : VmState Nat).snapshots = 0 :: [] ∧
      List.count VmEvent.MakeSnapshot [VmEvent.MakeSnapshot] =
        List.count VmEvent.RollbackToTheLatestSnapshot [VmEvent.MakeSnapshot] +
          List.count VmEvent.PopSnapshotNoRollback [VmEvent.MakeSnapshot] + 1) :=
  ⟨rfl, C6_amended_pre_attempt_snapshot_unresolved ⟨false, 10, false⟩
    (sampleBehavior true true (.Success 0) (.Success 0) (.Success 0))
    ⟨11, 0⟩ ⟨0, []⟩ (.RejectedByVm .TooBigGasLimit) ⟨0, [0]⟩ [.MakeSnapshot] rfl⟩

/-- C4: `FinishBatch` runs the real (non-speculative) finalization: if its
block-tip result is failed (a revert or any halt), the engine aborts
(`none`); on success it sends exactly one reply carrying the
`FinishedL1Batch` artifact together with the witness state captured exactly
when `upload_witness_inputs_to_gcs` is set, and the command loop terminates —
the remaining commands are returned unprocessed in the `Sealed` outcome. -/
theorem C4_finish_batch_seals {σ : Type} (self : CommandReceiver)
    (B : VmBehavior σ) (upload : Bool) (vm : VmState σ) (rest : List Command) :
    ((B.finishBatchVm vm.state).1.block_tip_execution_result.result.is_failed = true →
      run_loop self B upload vm (.FinishBatch :: rest) = none) ∧
    ((B.finishBatchVm vm.state).1.block_tip_execution_result.result.is_failed = false →
      run_loop self B upload vm (.FinishBatch :: rest) =
        some ([.Finished (B.finishBatchVm vm.state).1
                (if upload then some (B.witnessBlockState (B.finishBatchVm vm.state).2)
                 else none)],
          .Sealed ⟨(B.finishBatchVm vm.state).2, vm.snapshots⟩ rest)) := by
  constructor <;> intro hfail <;>
    simp only [run_loop, finish_batch, hfail] <;> rfl

/-- C4 witness: a successful real finalization seals the batch, captures the
witness state (configuration on), and leaves a later command unprocessed; a
failing one (here: a block-tip revert) aborts. -/
theorem C4_witness :
    (((sampleBehavior true true (.Success 0) (.Success 0) (.Success 7)
        ).finishBatchVm 0).1.block_tip_execution_result.result.is_failed = false) ∧
    run_loop ⟨true, 100, false⟩
        (sampleBehavior true true (.Success 0) (.Success 0) (.Success 7))
        true ⟨0, []⟩ [.FinishBatch, .RollbackLastTx] =
      some ([.Finished ⟨⟨.Success 7, 0, 0⟩, 0⟩ (some ⟨100⟩)],
        .Sealed ⟨100, []⟩ [.RollbackLastTx]) ∧
    (((sampleBehavior true true (.Success 0) (.Success 0) (.Revert 1)
        ).finishBatchVm 0).1.block_tip_execution_result.result.is_failed = true) ∧
    run_loop ⟨true, 100, false⟩
        (sampleBehavior true true (.Success 0) (.Success 0) (.Revert 1))
        true ⟨0, []⟩ [.FinishBatch] = none :=
  ⟨by decide,
    (C4_finish_batch_seals ⟨true, 100, false⟩
      (sampleBehavior true true (.Success 0) (.Success 0) (.Success 7))
      true ⟨0, []⟩ [.RollbackLastTx]).2 (by decide),
    by decide,
    (C4_finish_batch_seals ⟨true, 100, false⟩
      (sampleBehavior true true (.Success 0) (.Success 0) (.Revert 1))
      true ⟨0, []⟩ []).1 (by decide)⟩

/-- C2 counterexample: the claim says effects are kept if and only if
publication succeeds AND the transaction result is not itself a failure.  On
the code, the retry protocol keys only on the publication verdict: here
publication returns `Ok` while the execution result is a failure (a revert,
`is_failed = true`), and the engine still keeps the effects — the state
advances from 0 to 1 and the snapshot is discarded via
`PopSnapshotNoRollback`, with no rollback event. -/
theorem C2_counterexample :
    execute_tx_in_vm_with_optional_compression ⟨true, 100, true⟩
        (sampleBehavior true true (.Revert 0) (.Success 0) (.Success 0))
        ⟨10, 0⟩ ⟨0, []⟩ =
      some ((⟨.Revert 0, 0, 0⟩, [⟨1, 0⟩], [⟨0⟩]), ⟨1, []⟩,
        [.MakeSnapshot, .InspectTransactionWithBytecodeCompression true,
         .PopSnapshotNoRollback]) ∧
    (ExecutionResult.Revert 0).is_failed = true :=
  ⟨rfl, rfl⟩

/-- C2 (amended): the retry protocol keeps the effects of the execution
(discarding its snapshot without rollback) if and only if the VM
compression-publication verdict is `Ok` — the engine does not separately
examine whether the execution result is a failure.  If publication fails, the
engine rolls back to the pre-attempt snapshot, re-executes the same
transaction without compression from the pre-attempt state, and that second
second outcome is what is returned to `execute_tx` (a second publication
failure is a panic); when `optional_bytecode_compression` is set this
function is exactly the execution path of `execute_tx`. -/
theorem C2_amended_keep_iff_publish_ok {σ : Type} (self : CommandReceiver)
    (B : VmBehavior σ) (tx : Transaction) (vm : VmState σ) :
    ((B.inspectTransactionWithBytecodeCompression vm.state tx true).publish = true →
      execute_tx_in_vm_with_optional_compression self B tx vm =
        some (((B.inspectTransactionWithBytecodeCompression vm.state tx true).result,
               B.getLastTxCompressedBytecodes
                 (B.inspectTransactionWithBytecodeCompression vm.state tx true).state,
               if self.save_call_traces then
                 (B.inspectTransactionWithBytecodeCompression vm.state tx true).trace
               else []),
          ⟨(B.inspectTransactionWithBytecodeCompression vm.state tx true).state,
           vm.snapshots⟩,
          [.MakeSnapshot, .InspectTransactionWithBytecodeCompression true,
           .PopSnapshotNoRollback])) ∧
    ((B.inspectTransactionWithBytecodeCompression vm.state tx true).publish = false →
      (B.inspectTransactionWithBytecodeCompression vm.state tx false).publish = true →
      execute_tx_in_vm_with_optional_compression self B tx vm =
        some (((B.inspectTransactionWithBytecodeCompression vm.state tx false).result,
               B.getLastTxCompressedBytecodes
                 (B.inspectTransactionWithBytecodeCompression vm.state tx false).state,
               if self.save_call_traces then
                 (B.inspectTransactionWithBytecodeCompression vm.state tx false).trace
               else []),
          ⟨(B.inspectTransactionWithBytecodeCompression vm.state tx false).state,
           vm.snapshots⟩,
          [.MakeSnapshot, .InspectTransactionWithBytecodeCompression true,
           .RollbackToTheLatestSnapshot,
           .InspectTransactionWithBytecodeCompression false])) ∧
    ((B.inspectTransactionWithBytecodeCompression vm.state tx true).publish = false →
      (B.inspectTransactionWithBytecodeCompression vm.state tx false).publish = false →
      execute_tx_in_vm_with_optional_compression self B tx vm = none) ∧
    (self.optional_bytecode_compression = true →
      execute_tx_inner self B tx vm =
        execute_tx_in_vm_with_optional_compression self B tx vm) := by
  refine ⟨fun h1 => ?_, fun h1 h2 => ?_, fun h1 h2 => ?_, fun hopt => ?_⟩
  · rw [execute_tx_in_vm_with_optional_compression_characterization, h1]
    rfl
  · rw [execute_tx_in_vm_with_optional_compression_characterization, h1, h2]
    rfl
  · rw [execute_tx_in_vm_with_optional_compression_characterization, h1, h2]
    rfl
  · unfold execute_tx_inner
    rw [hopt]
    rfl

/-- C2 witness: a publication failure triggers rollback and a re-execution
without compression, whose (successful) outcome is returned. -/
theorem C2_witness :
    (((sampleBehavior false true (.Halt (.other 1)) (.Success 3) (.Success 0)
        ).inspectTransactionWithBytecodeCompression 0 ⟨10, 0⟩ true).publish = false) ∧
    (((sampleBehavior false true (.Halt (.other 1)) (.Success 3) (.Success 0)
        ).inspectTransactionWithBytecodeCompression 0 ⟨10, 0⟩ false).publish = true) ∧
    execute_tx_in_vm_with_optional_compression ⟨true, 100, true⟩
        (sampleBehavior false true (.Halt (.other 1)) (.Success 3) (.Success 0))
        ⟨10, 0⟩ ⟨0, []⟩ =
      some ((⟨.Success 3, 0, 0⟩, [⟨1, 0⟩], [⟨0⟩]), ⟨1, []⟩,
        [.MakeSnapshot, .InspectTransactionWithBytecodeCompression true,
         .RollbackToTheLatestSnapshot,
         .InspectTransactionWithBytecodeCompression false]) :=
  ⟨by decide, by decide,
    (C2_amended_keep_iff_publish_ok ⟨true, 100, true⟩
      (sampleBehavior false true (.Halt (.other 1)) (.Success 3) (.Success 0))
      ⟨10, 0⟩ ⟨0, []⟩).2.1 (by decide) (by decide)⟩

/-- C9 counterexample: the claim says that when storage acquisition yields no
storage the factory returns no handle; on the code, `init_batch` constructs
and returns the handle unconditionally — with no storage it still returns
`some` handle (whose spawned task simply never ran the executor loop). -/
theorem C9_counterexample :
    init_batch ⟨false, 10, false, false⟩
        (sampleBehavior true true (.Success 0) (.Success 0) (.Success 0))
        (none : Option Nat) [] = some ⟨none⟩ ∧
    init_batch ⟨false, 10, false, false⟩
        (sampleBehavior true true (.Success 0) (.Success 0) (.Success 0))
        (none : Option Nat) [] ≠ none :=
  ⟨rfl, by decide⟩

/-- C9 (amended): if storage-access acquisition during engine construction
yields no storage (for example because a shutdown was requested), the spawned
engine loop never runs — the task outcome in the returned handle is empty — but
the factory nonetheless returns a handle to the caller. -/
theorem C9_amended_handle_despite_no_storage {σ : Type}
    (self : MainBatchExecutor) (B : VmBehavior σ) (cmds : List Command) :
    init_batch self B (none : Option σ) cmds = some ⟨none⟩ :=
  rfl

end StateKeeper
